import Mathlib

/-
Shallow embedding of the request-correlation and log-enrichment code of
mellow-bike-map (src/app/mbm/logging.py and src/app/mbm/request_id.py).

Python dictionaries and objects are modelled as Lean structures; an
attribute that may be absent is an `Option` field (`none` = attribute not
set / key missing).  Thread-local storage is modelled as an explicit state
value threaded through the stateful operations.  All definitions are total
computable functions, mirroring the fact that the Python code performs no
raising operation on any input of the modelled shapes.
-/

/-- A Sentry error event (`event` in logging.py).  The code touches only the
`fingerprint` key; every other key of the event dictionary is collected,
untouched, in `extra`. -/
structure Event where
  fingerprint : Option (List String)
  extra : List (String × String)
deriving DecidableEq, Repr

/-- The log record that may accompany a Sentry hint.  `name` is the logger
name; `none` models a record object lacking a `name` attribute
(`hasattr(log_record, 'name')` false). -/
structure HintLogRecord where
  name : Option String
deriving DecidableEq, Repr

/-- A Sentry hint dictionary.  `log_record` is `none` when the dictionary has
no (truthy) `log_record` entry (`hint.get('log_record')` falsy). -/
structure Hint where
  log_record : Option HintLogRecord
deriving DecidableEq, Repr

/-- logging.py, `before_send(event, hint)`: if the hint carries a log record
whose logger name is `django.security.DisallowedHost`, overwrite the event's
fingerprint with `['disallowed-host']`; in every other case return the event
unchanged. -/
def before_send (event : Event) (hint : Hint) : Event :=
  match hint.log_record with
  | none => event
  | some log_record =>
    match log_record.name with
    | none => event
    | some n =>
      if n = "django.security.DisallowedHost" then
        { event with fingerprint := some ["disallowed-host"] }
      else
        event

/-- The thread-local object `_thread_locals` of request_id.py.  Its only
attribute ever used is `request_id`; `none` models the attribute never having
been set on this thread. -/
structure ThreadLocals where
  request_id : Option String
deriving DecidableEq, Repr

/-- request_id.py, `get_request_id()`:
`getattr(_thread_locals, 'request_id', None)` — the stored value when the
attribute was set, `None` otherwise.  Total: `getattr` with a default never
raises. -/
def get_request_id (tls : ThreadLocals) : Option String :=
  tls.request_id

/-- The same read, in state-passing form: `getattr` performs no write, so the
thread-local state comes back unchanged alongside the value. -/
def get_request_id_st (tls : ThreadLocals) : Option String × ThreadLocals :=
  (get_request_id tls, tls)

/-- A log record as seen by the filter and the formatter: logger name,
severity label, message, and the optional `request_id` attribute (`none` =
attribute absent, i.e. `hasattr(record, 'request_id')` false). -/
structure LogRecord where
  name : String
  levelname : String
  msg : String
  request_id : Option String
deriving DecidableEq, Repr

/-- The expression `request_id if request_id else 'no-request'` shared by the
filter and the formatter: Python truthiness, so both `None` and the empty
string fall back to the sentinel. -/
def ridOrSentinel (request_id : Option String) : String :=
  match request_id with
  | none => "no-request"
  | some s => if s = "" then "no-request" else s

namespace RequestIDFilter

/-- logging.py, `RequestIDFilter.filter(record)`: read the thread-local
request id, unconditionally set `record.request_id` to it (sentinel
`'no-request'` when falsy), and return `True`.  The debug print is pure
output and has no effect on the record or the return value. -/
def filter (tls : ThreadLocals) (record : LogRecord) : LogRecord × Bool :=
  let request_id := get_request_id tls
  ({ record with request_id := some (ridOrSentinel request_id) }, true)

end RequestIDFilter

namespace RequestIDServerFormatter

/-- logging.py, `RequestIDServerFormatter.format(record)`.  The base class
`ServerFormatter.format` is an external collaborator and is passed in as the
function `base`.  If the record lacks the `request_id` attribute it is
resolved from thread-local storage (with the same truthiness sentinel as the
filter); then the base formatter builds the message and the level/rid tag is
prepended.  Returns the formatted string together with the (possibly
mutated) record. -/
def format (base : LogRecord → String) (tls : ThreadLocals)
    (record : LogRecord) : String × LogRecord :=
  let record1 :=
    match record.request_id with
    | none => { record with request_id := some (ridOrSentinel (get_request_id tls)) }
    | some _ => record
  let msg := base record1
  (record1.levelname ++ " [rid=" ++ (record1.request_id).getD "" ++ "] " ++ msg,
   record1)

end RequestIDServerFormatter

/-- An inbound request object.  The middleware only attaches a `request_id`
attribute to it; everything else about the request is opaque (`payload`). -/
structure Request where
  request_id : Option String
  payload : String
deriving DecidableEq, Repr

namespace RequestIDMiddleware

/-- The pre-handler half of request_id.py, `RequestIDMiddleware.__call__`:
truncate the fresh UUID string to its first 8 characters
(`str(uuid.uuid4())[:8]`), store the result in the thread-local slot, and
attach it to the request object.  The UUID string produced by the generator
is passed in as `uuid_str` (for a real UUID4 it has 36 characters). -/
def install (uuid_str : String) (request : Request) : ThreadLocals × Request :=
  let request_id := uuid_str.take 8
  ({ request_id := some request_id }, { request with request_id := some request_id })

/-- request_id.py, `RequestIDMiddleware.__call__(request)`: install a fresh
request id (see `install`), invoke the downstream handler `get_response` on
the tagged request and updated thread-local state, and return its response
unmodified.  The thread-local slot is deliberately not cleared afterwards.
Returns (response, thread-local state after the handler, tagged request). -/
def call {ρ : Type} (get_response : Request → ThreadLocals → ρ × ThreadLocals)
    (uuid_str : String) (request : Request) (tls : ThreadLocals) :
    ρ × ThreadLocals × Request :=
  let p := install uuid_str request
  let r := get_response p.2 p.1
  (r.1, r.2, p.2)

end RequestIDMiddleware

/-- C1: if the hint's log record exists and its logger name equals
`django.security.DisallowedHost`, `before_send` returns the event with its
fingerprint set to `["disallowed-host"]` (all other fields untouched); for
every other logger name, or when the hint carries no log record, it returns
the event unchanged. -/
theorem spec_C1 (event : Event) (hint : Hint) :
    (∀ lr, hint.log_record = some lr →
      lr.name = some "django.security.DisallowedHost" →
      before_send event hint = { event with fingerprint := some ["disallowed-host"] }) ∧
    (∀ lr n, hint.log_record = some lr → lr.name = some n →
      n ≠ "django.security.DisallowedHost" → before_send event hint = event) ∧
    (hint.log_record = none → before_send event hint = event) := by
  refine ⟨?_, ?_, ?_⟩ <;> intros <;> simp_all [before_send]

/-- Witness for C1 at concrete inputs: the disallowed-host logger rewrites
the fingerprint, another logger name leaves the event alone, and so does a
hint without a log record. -/
theorem spec_C1_witness :
    before_send ⟨none, [("level", "error")]⟩
        ⟨some ⟨some "django.security.DisallowedHost"⟩⟩
      = ⟨some ["disallowed-host"], [("level", "error")]⟩ ∧
    before_send ⟨none, [("level", "error")]⟩ ⟨some ⟨some "django.request"⟩⟩
      = ⟨none, [("level", "error")]⟩ ∧
    before_send ⟨none, [("level", "error")]⟩ ⟨none⟩
      = ⟨none, [("level", "error")]⟩ :=
  ⟨(spec_C1 ⟨none, [("level", "error")]⟩
      ⟨some ⟨some "django.security.DisallowedHost"⟩⟩).1 _ rfl rfl,
   (spec_C1 ⟨none, [("level", "error")]⟩ ⟨some ⟨some "django.request"⟩⟩).2.1
      _ _ rfl rfl (by decide),
   (spec_C1 ⟨none, [("level", "error")]⟩ ⟨none⟩).2.2 rfl⟩

/-- C2: every embedded operation of the four components is a total Lean
function, so each returns a definite value on every input of the modelled
shapes — the embedding of "never raises".  In particular `before_send`
degrades to pass-through both when the hint has no log record and when the
log record lacks a `name` attribute, and the filter, the formatter, the
store read, and the boundary hook all return normally on every input. -/
theorem spec_C2 {ρ : Type} (event : Event) (hint : Hint) (tls : ThreadLocals)
    (record : LogRecord) (base : LogRecord → String)
    (get_response : Request → ThreadLocals → ρ × ThreadLocals)
    (uuid_str : String) (request : Request) :
    (hint.log_record = none → before_send event hint = event) ∧
    (∀ lr, hint.log_record = some lr → lr.name = none →
      before_send event hint = event) ∧
    (∃ r, RequestIDFilter.filter tls record = r) ∧
    (∃ s, RequestIDServerFormatter.format base tls record = s) ∧
    (∃ v, get_request_id tls = v) ∧
    (∃ x, RequestIDMiddleware.call get_response uuid_str request tls = x) := by
  refine ⟨?_, ?_, ⟨_, rfl⟩, ⟨_, rfl⟩, ⟨_, rfl⟩, ⟨_, rfl⟩⟩ <;>
    intros <;> simp_all [before_send]

/-- Witness for C2: a hint without a log record and a hint whose log record
has no `name` attribute both pass the event through. -/
theorem spec_C2_witness :
    before_send ⟨some ["x"], []⟩ ⟨none⟩ = ⟨some ["x"], []⟩ ∧
    before_send ⟨some ["x"], []⟩ ⟨some ⟨none⟩⟩ = ⟨some ["x"], []⟩ :=
  ⟨(spec_C2 ⟨some ["x"], []⟩ ⟨none⟩ ⟨none⟩ ⟨"l", "INFO", "m", none⟩
      (fun r => r.msg) (fun (r : Request) (t : ThreadLocals) => (r.payload, t))
      "u" ⟨none, "GET /"⟩).1 rfl,
   (spec_C2 ⟨some ["x"], []⟩ ⟨some ⟨none⟩⟩ ⟨none⟩ ⟨"l", "INFO", "m", none⟩
      (fun r => r.msg) (fun (r : Request) (t : ThreadLocals) => (r.payload, t))
      "u" ⟨none, "GET /"⟩).2.1 ⟨none⟩ rfl rfl⟩

/-- C3: for a record that already carries a `request_id`, `format` delegates
message construction to the base formatter and returns its output with
`"<LEVEL> [rid=<id>] "` prepended; in particular a record with level INFO,
message "hello" and attached id "abcd1234", under a base formatter that
renders the message itself, formats to exactly "INFO [rid=abcd1234] hello"
(hence to a string ending in it). -/
theorem spec_C3 (base : LogRecord → String) (tls : ThreadLocals)
    (record : LogRecord) (id : String) (h : record.request_id = some id) :
    (RequestIDServerFormatter.format base tls record).1
      = record.levelname ++ " [rid=" ++ id ++ "] " ++ base record ∧
    (RequestIDServerFormatter.format (fun r => r.msg) tls
        ⟨"django.server", "INFO", "hello", some "abcd1234"⟩).1
      = "INFO [rid=abcd1234] hello" := by
  constructor
  · simp [RequestIDServerFormatter.format, h]
  · rfl

/-- Witness for C3 at a concrete record with level INFO, message "hello" and
attached id "abcd1234". -/
theorem spec_C3_witness :
    (RequestIDServerFormatter.format (fun r => r.msg) ⟨none⟩
        ⟨"django.server", "INFO", "hello", some "abcd1234"⟩).1
      = "INFO [rid=abcd1234] hello" :=
  (spec_C3 (fun r => r.msg) ⟨none⟩
    ⟨"django.server", "INFO", "hello", some "abcd1234"⟩ "abcd1234" rfl).2

/-- Counterexample to C4 as stated: with the store holding the empty string
(a present value), the filter writes the sentinel `no-request` rather than
the current value, because the code tests Python truthiness
(`request_id if request_id else 'no-request'`), not presence. -/
theorem spec_C4_counterexample :
    get_request_id ⟨some ""⟩ = some "" ∧
    (RequestIDFilter.filter ⟨some ""⟩
        ⟨"django.server", "INFO", "hello", none⟩).1.request_id
      = some "no-request" ∧
    ("no-request" : String) ≠ "" :=
  ⟨rfl, rfl, by decide⟩

/-- C4 (amended): the filter sets the record's `request_id` to the store's
current value when a non-empty value is present, and to the sentinel
`no-request` when the store is absent (None) or holds the empty string, and
always returns True (the record is never filtered out). -/
theorem spec_C4 (tls : ThreadLocals) (record : LogRecord) :
    (∀ s, get_request_id tls = some s → s ≠ "" →
      (RequestIDFilter.filter tls record).1.request_id = some s) ∧
    ((get_request_id tls = none ∨ get_request_id tls = some "") →
      (RequestIDFilter.filter tls record).1.request_id = some "no-request") ∧
    (RequestIDFilter.filter tls record).2 = true := by
  refine ⟨?_, ?_, rfl⟩
  · intro s hs hne
    simp [RequestIDFilter.filter, ridOrSentinel, hs, hne]
  · rintro (hs | hs) <;> simp [RequestIDFilter.filter, ridOrSentinel, hs]

/-- Witness for C4 at concrete stores: a non-empty stored id is attached
verbatim, an absent store yields the sentinel, and the filter keeps the
record. -/
theorem spec_C4_witness :
    (RequestIDFilter.filter ⟨some "abcd1234"⟩
        ⟨"django.server", "INFO", "hello", none⟩).1.request_id
      = some "abcd1234" ∧
    (RequestIDFilter.filter ⟨none⟩
        ⟨"django.server", "INFO", "hello", none⟩).1.request_id
      = some "no-request" ∧
    (RequestIDFilter.filter ⟨none⟩
        ⟨"django.server", "INFO", "hello", none⟩).2 = true :=
  ⟨(spec_C4 ⟨some "abcd1234"⟩ ⟨"django.server", "INFO", "hello", none⟩).1
      "abcd1234" rfl (by decide),
   (spec_C4 ⟨none⟩ ⟨"django.server", "INFO", "hello", none⟩).2.1 (Or.inl rfl),
   (spec_C4 ⟨none⟩ ⟨"django.server", "INFO", "hello", none⟩).2.2⟩

/-- C5: for every request entering the middleware (with a UUID string of at
least 8 characters, as `str(uuid.uuid4())` always is), before the downstream
handler runs a single 8-character id — the truncated UUID — is installed
both in the thread-local slot and on the request object, and the two are
equal; moreover `call` invokes the handler on exactly that installed state
and tagged request, so the id is visible to code running in the request. -/
theorem spec_C5 {ρ : Type} (get_response : Request → ThreadLocals → ρ × ThreadLocals)
    (uuid_str : String) (request : Request) (tls : ThreadLocals)
    (h : 8 ≤ uuid_str.length) :
    ((RequestIDMiddleware.install uuid_str request).1.request_id
        = some (uuid_str.take 8) ∧
     (RequestIDMiddleware.install uuid_str request).2.request_id
        = some (uuid_str.take 8) ∧
     (uuid_str.take 8).length = 8) ∧
    RequestIDMiddleware.call get_response uuid_str request tls
      = ((get_response (RequestIDMiddleware.install uuid_str request).2
            (RequestIDMiddleware.install uuid_str request).1).1,
         (get_response (RequestIDMiddleware.install uuid_str request).2
            (RequestIDMiddleware.install uuid_str request).1).2,
         (RequestIDMiddleware.install uuid_str request).2) := by
  refine ⟨⟨rfl, rfl, ?_⟩, rfl⟩
  rw [String.take_eq, String.mk_length, List.length_take]
  have h2 : uuid_str.length = uuid_str.1.length := rfl
  omega

/-- Witness for C5 with a concrete 36-character UUID string: the installed
thread-local id and request tag are both the 8-character prefix. -/
theorem spec_C5_witness :
    (RequestIDMiddleware.install "0a1b2c3d-1111-2222-3333-444455556666"
        ⟨none, "GET /"⟩).1.request_id = some "0a1b2c3d" ∧
    (RequestIDMiddleware.install "0a1b2c3d-1111-2222-3333-444455556666"
        ⟨none, "GET /"⟩).2.request_id = some "0a1b2c3d" ∧
    ("0a1b2c3d" : String).length = 8 := by
  have h := spec_C5 (fun (r : Request) (t : ThreadLocals) => ((r, t), t))
    "0a1b2c3d-1111-2222-3333-444455556666" ⟨none, "GET /"⟩ ⟨none⟩ (by decide)
  refine ⟨?_, ?_, by decide⟩
  · rw [h.1.1]; decide
  · rw [h.1.2.1]; decide

/-- C6: the boundary hook returns exactly the downstream handler's response
for the tagged request — a pure pass-through of the result. -/
theorem spec_C6 {ρ : Type} (get_response : Request → ThreadLocals → ρ × ThreadLocals)
    (uuid_str : String) (request : Request) (tls : ThreadLocals) :
    (RequestIDMiddleware.call get_response uuid_str request tls).1
      = (get_response (RequestIDMiddleware.install uuid_str request).2
          (RequestIDMiddleware.install uuid_str request).1).1 := rfl

/-- C7: the middleware never clears the thread-local slot after the handler
returns: when the handler leaves the store as the middleware installed it,
the store after `call` still yields the id generated for this request (the
stale id, not `none`). -/
theorem spec_C7 {ρ : Type} (get_response : Request → ThreadLocals → ρ × ThreadLocals)
    (uuid_str : String) (request : Request) (tls : ThreadLocals)
    (h : (get_response (RequestIDMiddleware.install uuid_str request).2
            (RequestIDMiddleware.install uuid_str request).1).2
          = (RequestIDMiddleware.install uuid_str request).1) :
    get_request_id (RequestIDMiddleware.call get_response uuid_str request tls).2.1
      = some (uuid_str.take 8) := by
  have hc : (RequestIDMiddleware.call get_response uuid_str request tls).2.1
      = (get_response (RequestIDMiddleware.install uuid_str request).2
          (RequestIDMiddleware.install uuid_str request).1).2 := rfl
  rw [hc, h]
  rfl

/-- Witness for C7: a store-preserving handler leaves the generated id
readable after the call returns. -/
theorem spec_C7_witness :
    get_request_id (RequestIDMiddleware.call
        (fun (r : Request) (t : ThreadLocals) => (r.payload, t))
        "0a1b2c3d-1111-2222-3333-444455556666" ⟨none, "GET /"⟩ ⟨none⟩).2.1
      = some "0a1b2c3d" := by
  have h := spec_C7 (fun (r : Request) (t : ThreadLocals) => (r.payload, t))
    "0a1b2c3d-1111-2222-3333-444455556666" ⟨none, "GET /"⟩ ⟨none⟩ rfl
  rw [h]; decide

/-- C8: `get_request_id` returns the stored value when the thread-local slot
was set and `none` when it never was; being a total function, it returns one
of these in every state and never raises. -/
theorem spec_C8 (tls : ThreadLocals) :
    (∀ v, tls.request_id = some v → get_request_id tls = some v) ∧
    (tls.request_id = none → get_request_id tls = none) := by
  constructor <;> intros <;> simp_all [get_request_id]

/-- Witness for C8: a set slot reads back its value; a never-set slot reads
back `none`. -/
theorem spec_C8_witness :
    get_request_id ⟨some "abcd1234"⟩ = some "abcd1234" ∧
    get_request_id ⟨none⟩ = none :=
  ⟨(spec_C8 ⟨some "abcd1234"⟩).1 "abcd1234" rfl, (spec_C8 ⟨none⟩).2 rfl⟩

/-- C9: the store read is idempotent — two consecutive reads with no
intervening write return the same value — and the read leaves the
thread-local state unchanged (`getattr` performs no write). -/
theorem spec_C9 (tls : ThreadLocals) :
    (get_request_id_st ((get_request_id_st tls).2)).1
      = (get_request_id_st tls).1 ∧
    (get_request_id_st tls).2 = tls :=
  ⟨rfl, rfl⟩

/-- C10: on a record that already carries a `request_id`, the filter
unconditionally overwrites it with the value computed from the store (the
stored id, with the `no-request` sentinel fallback), whereas the formatter
leaves the record unchanged and uses the existing attribute in its output;
the formatter consults the store only when the attribute is missing. -/
theorem spec_C10 (base : LogRecord → String) (tls : ThreadLocals)
    (record : LogRecord) (id : String) (h : record.request_id = some id) :
    (RequestIDFilter.filter tls record).1.request_id
      = some (ridOrSentinel (get_request_id tls)) ∧
    (RequestIDServerFormatter.format base tls record).2 = record ∧
    (RequestIDServerFormatter.format base tls record).1
      = record.levelname ++ " [rid=" ++ id ++ "] " ++ base record ∧
    (∀ r2 : LogRecord, r2.request_id = none →
      (RequestIDServerFormatter.format base tls r2).2.request_id
        = some (ridOrSentinel (get_request_id tls))) := by
  refine ⟨rfl, ?_, ?_, ?_⟩
  · simp [RequestIDServerFormatter.format, h]
  · simp [RequestIDServerFormatter.format, h]
  · intro r2 h2
    simp [RequestIDServerFormatter.format, h2]

/-- Witness for C10: with the store holding "efgh5678" and a record already
tagged "abcd1234", the filter overwrites the tag with the store value while
the formatter keeps and prints the existing tag, and on an untagged record
the formatter falls back to the store. -/
theorem spec_C10_witness :
    (RequestIDFilter.filter ⟨some "efgh5678"⟩
        ⟨"django.server", "INFO", "hello", some "abcd1234"⟩).1.request_id
      = some (ridOrSentinel (get_request_id ⟨some "efgh5678"⟩)) ∧
    (RequestIDServerFormatter.format (fun r => r.msg) ⟨some "efgh5678"⟩
        ⟨"django.server", "INFO", "hello", some "abcd1234"⟩).1
      = "INFO [rid=abcd1234] hello" ∧
    (RequestIDServerFormatter.format (fun r => r.msg) ⟨some "efgh5678"⟩
        ⟨"django.server", "INFO", "hello", none⟩).2.request_id
      = some (ridOrSentinel (get_request_id ⟨some "efgh5678"⟩)) := by
  have h := spec_C10 (fun r => r.msg) ⟨some "efgh5678"⟩
    ⟨"django.server", "INFO", "hello", some "abcd1234"⟩ "abcd1234" rfl
  exact ⟨h.1, h.2.2.1, h.2.2.2 ⟨"django.server", "INFO", "hello", none⟩ rfl⟩
